import Mathlib

/-!
Shallow embedding of the BrassMonkeyFridgeMonitor protocol layer
(src/fridge.py) and monitoring loop (src/fridge_mqtt.py).

Bytes are modelled as `Nat` (with explicit `< 256` hypotheses where the
claims need them); byte strings as `List Nat`.  Python functions that can
raise are modelled as `Except`-valued (the error constructor records which
of the source's distinct failure branches fired); functions returning
`None` on failure and a value on success are modelled as `Option`/`Except`
as appropriate.  Python float arithmetic on `battery_voltage` (the single
expression `battery_voltage_int + battery_voltage_frac / 10`) is modelled
exactly over `ℚ`.
-/

namespace FridgeMonitor

/-- Value of `struct.unpack` format `b` (signed byte) applied to a raw byte. -/
def toSigned (b : Nat) : Int :=
  if b < 128 then (b : Int) else (b : Int) - 256

/-- Enum `FridgeRunMode` from fridge.py (`Max = 0`, `Eco = 1`). -/
inductive FridgeRunMode where
  | Max
  | Eco
deriving DecidableEq

/-- Enum `FridgeBatterySaver` from fridge.py (`Low = 0`, `Mid = 1`, `High = 2`). -/
inductive FridgeBatterySaver where
  | Low
  | Mid
  | High
deriving DecidableEq

/-- Enum `FridgeTemperatureUnit` from fridge.py (`Celsius = 0`, `Fahrenheit = 1`). -/
inductive FridgeTemperatureUnit where
  | Celsius
  | Fahrenheit
deriving DecidableEq

/-- Integer value of a `FridgeRunMode` (the int-enum value `struct.pack` writes). -/
def FridgeRunMode.toByte : FridgeRunMode → Nat
  | .Max => 0
  | .Eco => 1

/-- Integer value of a `FridgeBatterySaver`. -/
def FridgeBatterySaver.toByte : FridgeBatterySaver → Nat
  | .Low => 0
  | .Mid => 1
  | .High => 2

/-- Integer value of a `FridgeTemperatureUnit`. -/
def FridgeTemperatureUnit.toByte : FridgeTemperatureUnit → Nat
  | .Celsius => 0
  | .Fahrenheit => 1

/-- Decidable equality of `Except` results, used to evaluate the codecs on
concrete inputs. -/
instance {ε α : Type} [DecidableEq ε] [DecidableEq α] : DecidableEq (Except ε α)
  | .error e, .error f =>
    if h : e = f then .isTrue (by rw [h]) else .isFalse (by simp [h])
  | .error _, .ok _ => .isFalse (by simp)
  | .ok _, .error _ => .isFalse (by simp)
  | .ok a, .ok b =>
    if h : a = b then .isTrue (by rw [h]) else .isFalse (by simp [h])

/-- Errors `decode_fridge_data` can raise: `ValueError('Packet too short')`,
`ValueError` from an int-enum constructor on an unknown value, and
`struct.error` from `struct.unpack_from` reading past the end of the buffer. -/
inductive RecordErr where
  | tooShort
  | unknownEnum
  | structError
deriving DecidableEq

/-- Dataclass `FridgeUnitData` from fridge.py. -/
structure FridgeUnitData where
  target_temperature : Int
  hysteresis : Int
  temperature_correction_hot : Int
  temperature_correction_mid : Int
  temperature_correction_cold : Int
  temperature_correction_halt : Int
  current_temperature : Int
deriving DecidableEq

/-- Dataclass `FridgeData` from fridge.py.  The field `running_status` is declared
`Optional[int]` in the source but the source assigns the whole tuple
returned by `struct.unpack_from('B', data, 28)` without indexing it, so the
stored value is the 1-tuple of the byte; we model the tuple as a `List Nat`. -/
structure FridgeData where
  controls_locked : Bool
  powered_on : Bool
  run_mode : FridgeRunMode
  battery_saver : FridgeBatterySaver
  max_selectable_temperature : Int
  min_selectable_temperature : Int
  start_delay : Nat
  temperature_unit : FridgeTemperatureUnit
  battery_charge_percent : Nat
  battery_voltage : ℚ
  running_status : Option (List Nat)
  unit1 : FridgeUnitData
  unit2 : Option FridgeUnitData
deriving DecidableEq

/-- Python `FridgeRunMode(x)`: succeeds on 0 and 1, raises `ValueError` otherwise. -/
def parseRunMode (x : Nat) : Except RecordErr FridgeRunMode :=
  if x = 0 then .ok .Max
  else if x = 1 then .ok .Eco
  else .error .unknownEnum

/-- Python `FridgeBatterySaver(x)`: succeeds on 0, 1 and 2, raises `ValueError` otherwise. -/
def parseBatterySaver (x : Nat) : Except RecordErr FridgeBatterySaver :=
  if x = 0 then .ok .Low
  else if x = 1 then .ok .Mid
  else if x = 2 then .ok .High
  else .error .unknownEnum

/-- Python `FridgeTemperatureUnit(x)`: succeeds on 0 and 1, raises `ValueError` otherwise. -/
def parseTemperatureUnit (x : Nat) : Except RecordErr FridgeTemperatureUnit :=
  if x = 0 then .ok .Celsius
  else if x = 1 then .ok .Fahrenheit
  else .error .unknownEnum

/-- Model of `decode_unit1_data`: `struct.unpack_from('>bxxbxxbbbbb', data, 4)`, i.e.
signed bytes at offsets 4 (target), 7 (hysteresis), 10-13 (corrections
hot/mid/cold/cold-halt) and 14 (current temperature).  The source would raise
on buffers shorter than 15 bytes, but its only caller first checks
`len(data) >= 18`; out-of-range reads are modelled with `getD`'s default. -/
def decode_unit1_data (data : List Nat) : FridgeUnitData :=
  { target_temperature := toSigned (data.getD 4 0)
    hysteresis := toSigned (data.getD 7 0)
    temperature_correction_hot := toSigned (data.getD 10 0)
    temperature_correction_mid := toSigned (data.getD 11 0)
    temperature_correction_cold := toSigned (data.getD 12 0)
    temperature_correction_halt := toSigned (data.getD 13 0)
    current_temperature := toSigned (data.getD 14 0) }

/-- Model of `decode_unit2_data`: returns `None` for buffers shorter than 28 bytes,
otherwise `struct.unpack_from('>bxxbbbbbb', data, 18)`: signed bytes at
offsets 18 (target), 21 (hysteresis), 22-25 (corrections) and 26 (current). -/
def decode_unit2_data (data : List Nat) : Option FridgeUnitData :=
  if data.length < 28 then none
  else
    some
      { target_temperature := toSigned (data.getD 18 0)
        hysteresis := toSigned (data.getD 21 0)
        temperature_correction_hot := toSigned (data.getD 22 0)
        temperature_correction_mid := toSigned (data.getD 23 0)
        temperature_correction_cold := toSigned (data.getD 24 0)
        temperature_correction_halt := toSigned (data.getD 25 0)
        current_temperature := toSigned (data.getD 26 0) }

/-- Model of `decode_fridge_data`.  Mirrors the source's control flow:
first the length guard (`ValueError('Packet too short')` when `len < 18`);
then the `running_status` block — guarded by `len(data) >= 28` but reading
`struct.unpack_from('B', data, 28)`, which needs `len >= 29` and raises
`struct.error` when `len == 28`; the source keeps the returned 1-tuple
(no `[0]`), modelled as the singleton list.  Enum conversions happen last,
while the `FridgeData` constructor arguments are evaluated.  The main
unpack is `'>??BBxbbxBBxxxxxBBB'` at offset 0: bools at 0-1, unsigned bytes
at 2, 3, 8, 9, 15, 16, 17, signed bytes at 5 and 6. -/
def decode_fridge_data (data : List Nat) : Except RecordErr FridgeData :=
  if data.length < 18 then .error .tooShort
  else if 28 ≤ data.length ∧ data.length < 29 then .error .structError
  else
    match parseRunMode (data.getD 2 0), parseBatterySaver (data.getD 3 0),
        parseTemperatureUnit (data.getD 9 0) with
    | .ok rm, .ok bs, .ok tu =>
      .ok
        { controls_locked := data.getD 0 0 != 0
          powered_on := data.getD 1 0 != 0
          run_mode := rm
          battery_saver := bs
          max_selectable_temperature := toSigned (data.getD 5 0)
          min_selectable_temperature := toSigned (data.getD 6 0)
          start_delay := data.getD 8 0
          temperature_unit := tu
          battery_charge_percent := data.getD 15 0
          battery_voltage := (data.getD 16 0 : ℚ) + (data.getD 17 0 : ℚ) / 10
          running_status := if 28 ≤ data.length then some [data.getD 28 0] else none
          unit1 := decode_unit1_data data
          unit2 := decode_unit2_data data }
    | .error e, _, _ => .error e
    | _, .error e, _ => .error e
    | _, _, .error e => .error e

/-- Model of `create_packet`: `b'\xFE\xFE' + struct.pack('B', len(data) + 2) + data`
followed by `struct.pack('>H', sum(pkt))`.  `struct.pack('B', _)` raises for
values above 255 and `struct.pack('>H', _)` for values above 65535, modelled
as `none`. -/
def create_packet (data : List Nat) : Option (List Nat) :=
  if 255 < data.length + 2 then none
  else if 65536 ≤ (254 :: 254 :: (data.length + 2) :: data).sum then none
  else
    some ((254 :: 254 :: (data.length + 2) :: data) ++
      [(254 :: 254 :: (data.length + 2) :: data).sum / 256,
       (254 :: 254 :: (data.length + 2) :: data).sum % 256])

/-- The four distinct warning-and-return-None branches of `get_packet_data`,
typed as in the spec's `FrameError`. -/
inductive FrameErr where
  | tooShort
  | badHeader
  | lengthMismatch
  | badChecksum
deriving DecidableEq

/-- Checksum field of a frame: `struct.unpack_from('>H', data[-2:])[0]`, the
trailing 16-bit big-endian value. -/
def frame_csum (data : List Nat) : Nat :=
  (data.drop (data.length - 2)).getD 0 0 * 256 + (data.drop (data.length - 2)).getD 1 0

/-- Byte sum of a frame: `sum(int(v) for v in data[:-2])`, the arithmetic sum
of all bytes before the checksum field. -/
def frame_sum (data : List Nat) : Nat :=
  (data.take (data.length - 2)).sum

/-- Model of `get_packet_data`.  The source logs a distinct warning and returns `None`
for each failure; each failure branch is given its `FrameErr` constructor.
The final test is `csum not in (calcsum, calcsum * 2)`; on success the
function returns `data[3:-2]`. -/
def get_packet_data (data : List Nat) : Except FrameErr (List Nat) :=
  if data.length ≤ 2 then .error .tooShort
  else if data.take 2 ≠ [254, 254] then .error .badHeader
  else if data.getD 2 0 ≠ data.length - 3 then .error .lengthMismatch
  else if frame_csum data = frame_sum data ∨ frame_csum data = frame_sum data * 2 then
    .ok ((data.drop 3).take (data.length - 5))
  else .error .badChecksum

/-- Python `struct.pack('b', x)`: raises `struct.error` unless `-128 <= x <= 127`;
encodes as the two's-complement byte. -/
def packSignedByte (x : Int) : Option Nat :=
  if -128 ≤ x ∧ x ≤ 127 then some (if x < 0 then (x + 256).toNat else x.toNat)
  else none

/-- Python `struct.pack('B', x)`: raises `struct.error` unless `0 <= x <= 255`. -/
def packUnsignedByte (x : Nat) : Option Nat :=
  if x ≤ 255 then some x else none

/-- Python `struct.pack('?', b)`: `True` packs as 1, `False` as 0 (total). -/
def packBool (b : Bool) : Nat :=
  if b then 1 else 0

/-- The `unit2 is None` branch of `encode_set_command`'s payload:
`struct.pack('>B??BBbbbbBBbbbb', FridgeCommand.Set, ...)`.  Signed (`b`) and
`start_delay` (`B`) slots can raise on out-of-range values, modelled by
`Option`. -/
def encode_set_payload_no_unit2 (d : FridgeData) : Option (List Nat) :=
  match packSignedByte d.unit1.target_temperature with
  | none => none
  | some p4 =>
  match packSignedByte d.max_selectable_temperature with
  | none => none
  | some p5 =>
  match packSignedByte d.min_selectable_temperature with
  | none => none
  | some p6 =>
  match packSignedByte d.unit1.hysteresis with
  | none => none
  | some p7 =>
  match packUnsignedByte d.start_delay with
  | none => none
  | some p8 =>
  match packSignedByte d.unit1.temperature_correction_hot with
  | none => none
  | some p10 =>
  match packSignedByte d.unit1.temperature_correction_mid with
  | none => none
  | some p11 =>
  match packSignedByte d.unit1.temperature_correction_cold with
  | none => none
  | some p12 =>
  match packSignedByte d.unit1.temperature_correction_halt with
  | none => none
  | some p13 =>
  some [2, packBool d.controls_locked, packBool d.powered_on,
    d.run_mode.toByte, d.battery_saver.toByte,
    p4, p5, p6, p7, p8, d.temperature_unit.toByte, p10, p11, p12, p13]

/-- The branch of `encode_set_command`'s payload with `unit2` present of `encode_set_command`'s payload:
`struct.pack('>B??BBbbbbBBbbbbbxxbbbbbxxx', ...)`; `x` slots are zero bytes. -/
def encode_set_payload_with_unit2 (d : FridgeData) (u2 : FridgeUnitData) :
    Option (List Nat) :=
  match packSignedByte d.unit1.target_temperature with
  | none => none
  | some p4 =>
  match packSignedByte d.max_selectable_temperature with
  | none => none
  | some p5 =>
  match packSignedByte d.min_selectable_temperature with
  | none => none
  | some p6 =>
  match packSignedByte d.unit1.hysteresis with
  | none => none
  | some p7 =>
  match packUnsignedByte d.start_delay with
  | none => none
  | some p8 =>
  match packSignedByte d.unit1.temperature_correction_hot with
  | none => none
  | some p10 =>
  match packSignedByte d.unit1.temperature_correction_mid with
  | none => none
  | some p11 =>
  match packSignedByte d.unit1.temperature_correction_cold with
  | none => none
  | some p12 =>
  match packSignedByte d.unit1.temperature_correction_halt with
  | none => none
  | some p13 =>
  match packSignedByte u2.target_temperature with
  | none => none
  | some q15 =>
  match packSignedByte u2.hysteresis with
  | none => none
  | some q18 =>
  match packSignedByte u2.temperature_correction_hot with
  | none => none
  | some q19 =>
  match packSignedByte u2.temperature_correction_mid with
  | none => none
  | some q20 =>
  match packSignedByte u2.temperature_correction_cold with
  | none => none
  | some q21 =>
  match packSignedByte u2.temperature_correction_halt with
  | none => none
  | some q22 =>
  some [2, packBool d.controls_locked, packBool d.powered_on,
    d.run_mode.toByte, d.battery_saver.toByte,
    p4, p5, p6, p7, p8, d.temperature_unit.toByte, p10, p11, p12, p13,
    q15, 0, 0, q18, q19, q20, q21, q22, 0, 0, 0]

/-- Payload of `encode_set_command` (the bytes handed to `create_packet`):
the source branches on `data.unit2 is None`. -/
def encode_set_payload (d : FridgeData) : Option (List Nat) :=
  match d.unit2 with
  | none => encode_set_payload_no_unit2 d
  | some u2 => encode_set_payload_with_unit2 d u2

/-- Model of `encode_set_command`: the Set payload wrapped by `create_packet`. -/
def encode_set_command (d : FridgeData) : Option (List Nat) :=
  (encode_set_payload d).bind create_packet

/-- One entry of the `units` mapping produced by `FridgeData.to_dict`. -/
structure FridgeInfoUnit where
  temperature : Int
  target : Int
deriving DecidableEq

/-- The JSON dict produced by `FridgeData.to_dict` (`unit1`/`unit2` are the
optional `"1"`/`"2"` keys of the `units` mapping; `unit1` is always present
since the field is non-optional, but the source guards it with
`if self.unit1 is not None`). -/
structure FridgeInfo where
  «on» : Bool
  runMode : FridgeRunMode
  lowVoltageLevel : FridgeBatterySaver
  batteryVoltage : ℚ
  batteryChargePercent : Nat
  temperatureUnit : FridgeTemperatureUnit
  unit1 : Option FridgeInfoUnit
  unit2 : Option FridgeInfoUnit
deriving DecidableEq

/-- Model of `FridgeData.to_dict`. -/
def FridgeData.to_dict (d : FridgeData) : FridgeInfo :=
  { «on» := d.powered_on
    runMode := d.run_mode
    lowVoltageLevel := d.battery_saver
    batteryVoltage := d.battery_voltage
    batteryChargePercent := d.battery_charge_percent
    temperatureUnit := d.temperature_unit
    unit1 := some { temperature := d.unit1.current_temperature, target := d.unit1.target_temperature }
    unit2 := d.unit2.map fun u =>
      { temperature := u.current_temperature, target := u.target_temperature } }

/-- MQTT publications made by fridge_mqtt.py: the retained-topic pair
`fridge/{addr}/online` with a boolean, and `fridge/{addr}/state` with the
`to_dict` rendering of a snapshot. -/
inductive MqttEvent where
  | online (b : Bool)
  | state (info : FridgeInfo)
deriving DecidableEq

/-- Model of `publish_offline`: publishes `online = False`. -/
def publish_offline : List MqttEvent :=
  [.online false]

/-- Model of `publish_status`: publishes `online = True` when `previous_data is None`,
then the state dict when `previous_data is None or data != previous_data`. -/
def publish_status (data : FridgeData) (previous_data : Option FridgeData) :
    List MqttEvent :=
  (if previous_data = none then [.online true] else []) ++
    (if previous_data = none ∨ some data ≠ previous_data then [.state data.to_dict] else [])

/-- Reading a local variable that has never been assigned raises
`UnboundLocalError` in Python. -/
inductive MonitorErr where
  | unboundLocal
deriving DecidableEq

/-- The two locals of fridge_mqtt.py's `run` that the poll loop reads:
`query_response` and `last_status`.  `none` at the outer level means the
variable has never been assigned (so reading it raises). -/
structure MonitorState where
  query_response : Option FridgeData
  last_status : Option (Option FridgeData)

/-- The initial-query step of `run`: on success (`some r`) it runs
`publish_status(mqttc, addr, query_response, None)` and sets
`last_status = query_response`; on `TimeoutError` it does nothing, leaving
both locals unassigned. -/
def initMonitor : Option FridgeData → MonitorState × List MqttEvent
  | none => ({ query_response := none, last_status := none }, [])
  | some r =>
    ({ query_response := some r, last_status := some (some r) }, publish_status r none)

/-- One iteration of the poll loop of `run`.  The iteration's query outcome is
`none` on `TimeoutError` and `some s` when a response decoded to snapshot
`s` — note the source discards that result (`await asyncio.wait_for(...)`
with no assignment) and republishes the stale `query_response`.  Reading an
unassigned local raises `UnboundLocalError`. -/
def pollStep (st : MonitorState) : Option FridgeData →
    Except MonitorErr (MonitorState × List MqttEvent)
  | none =>
    match st.last_status with
    | none => .error .unboundLocal
    | some v =>
      .ok ({ st with last_status := some none },
        if v ≠ none then publish_offline else [])
  | some _ =>
    match st.query_response, st.last_status with
    | some q, some v =>
      .ok ({ st with last_status := some (some q) }, publish_status q v)
    | _, _ => .error .unboundLocal

/-- The poll loop of `run`, folded over a finite list of iteration outcomes. -/
def pollLoop (st : MonitorState) : List (Option FridgeData) →
    Except MonitorErr (List MqttEvent)
  | [] => .ok []
  | o :: rest =>
    match pollStep st o with
    | .error e => .error e
    | .ok (st2, ev) =>
      match pollLoop st2 rest with
      | .error e => .error e
      | .ok evs => .ok (ev ++ evs)

/-- fridge_mqtt.py `run`: the initial query followed by the poll loop, with
each query outcome given as `some snapshot` (success) or `none` (timeout).
Returns the list of MQTT publications, or the Python error the loop raises. -/
def runMonitor (initial : Option FridgeData) (polls : List (Option FridgeData)) :
    Except MonitorErr (List MqttEvent) :=
  let (st0, ev0) := initMonitor initial
  match pollLoop st0 polls with
  | .error e => .error e
  | .ok evs => .ok (ev0 ++ evs)

/-- Which of the `Fridge` instance's per-command result futures currently hold
a `Future` (i.e. have a pending waiter). -/
structure FridgeWaiters where
  bind : Bool
  query : Bool
  set : Bool
  reset : Bool
  setUnit1 : Bool
  setUnit2 : Bool

/-- The observable effects of `Fridge._notify_callback`, in order: calling the
`on_query_response` observer, and `set_result` on a pending future. -/
inductive NotifyAction where
  | onQueryResponse (d : FridgeData)
  | resolveBind (v : Nat)
  | resolveQuery (d : FridgeData)
  | resolveSet (d : FridgeData)
  | resolveReset (d : FridgeData)
  | resolveSetUnit1 (v : Int)
  | resolveSetUnit2 (v : Int)
deriving DecidableEq

/-- Model of `Fridge._notify_query`: calls `on_query_response` (when set) first, then
resolves the pending query future (when present). -/
def notify_query (observerSet : Bool) (w : FridgeWaiters) (d : FridgeData) :
    List NotifyAction :=
  (if observerSet then [.onQueryResponse d] else []) ++
    (if w.query then [.resolveQuery d] else [])

/-- Model of `Fridge._notify_callback`: unframes the packet (`None` → return), drops
payloads shorter than 2 bytes, then dispatches on the leading command-code
byte.  `decode_fridge_data` may raise out of the callback, modelled as the
`Except` error. -/
def notify_callback (observerSet : Bool) (w : FridgeWaiters) (pkt : List Nat) :
    Except RecordErr (List NotifyAction) :=
  match get_packet_data pkt with
  | .error _ => .ok []
  | .ok data =>
    if data.length < 2 then .ok []
    else
      let cmd := data.getD 0 0
      if cmd = 0 then .ok (if w.bind then [.resolveBind (data.getD 1 0)] else [])
      else if cmd = 1 then
        match decode_fridge_data (data.drop 1) with
        | .error e => .error e
        | .ok d => .ok (notify_query observerSet w d)
      else if cmd = 2 then
        match decode_fridge_data (data.drop 1) with
        | .error e => .error e
        | .ok d => .ok (if w.set then [.resolveSet d] else [])
      else if cmd = 4 then
        match decode_fridge_data (data.drop 1) with
        | .error e => .error e
        | .ok d => .ok (if w.reset then [.resolveReset d] else [])
      else if cmd = 5 then
        .ok (if w.setUnit1 then [.resolveSetUnit1 (toSigned (data.getD 1 0))] else [])
      else if cmd = 6 then
        .ok (if w.setUnit2 then [.resolveSetUnit2 (toSigned (data.getD 1 0))] else [])
      else .ok []

/-- An all-zero snapshot with a populated second compartment, used to build a
self-consistent two-zone Set command payload. -/
def fridgeDataTwoZone : FridgeData :=
  { controls_locked := false
    powered_on := false
    run_mode := .Max
    battery_saver := .Low
    max_selectable_temperature := 0
    min_selectable_temperature := 0
    start_delay := 0
    temperature_unit := .Celsius
    battery_charge_percent := 0
    battery_voltage := 0
    running_status := none
    unit1 := ⟨0, 0, 0, 0, 0, 0, 0⟩
    unit2 := some ⟨0, 0, 0, 0, 0, 0, 0⟩ }

/-- An all-zero single-zone snapshot. -/
def fridgeDataZero : FridgeData :=
  { controls_locked := false
    powered_on := false
    run_mode := .Max
    battery_saver := .Low
    max_selectable_temperature := 0
    min_selectable_temperature := 0
    start_delay := 0
    temperature_unit := .Celsius
    battery_charge_percent := 0
    battery_voltage := 0
    running_status := none
    unit1 := ⟨0, 0, 0, 0, 0, 0, 0⟩
    unit2 := none }

/-- Snapshot `fridgeDataZero` with a different battery charge: a changed snapshot. -/
def fridgeDataCharged : FridgeData :=
  { fridgeDataZero with battery_charge_percent := 1 }

/-- The 19-byte query-response payload of all-zero readings, wrapped as a
frame by `create_packet`. -/
def pktQueryZero : List Nat :=
  [254, 254, 21, 1] ++ List.replicate 18 0 ++ [2, 18]

/-- The snapshot the all-zero 18-byte record decodes to. -/
def snapZero : FridgeData :=
  { controls_locked := false
    powered_on := false
    run_mode := .Max
    battery_saver := .Low
    max_selectable_temperature := 0
    min_selectable_temperature := 0
    start_delay := 0
    temperature_unit := .Celsius
    battery_charge_percent := 0
    battery_voltage := ((0 : Nat) : ℚ) + ((0 : Nat) : ℚ) / 10
    running_status := none
    unit1 := ⟨0, 0, 0, 0, 0, 0, 0⟩
    unit2 := none }

/-! ## Frame codec theorems -/

/-- For byte payloads of at most 253 bytes the frame checksum fits in 16 bits. -/
lemma packet_sum_lt (p : List Nat) (hlen : p.length ≤ 253) (hb : ∀ b ∈ p, b < 256) :
    (254 :: 254 :: (p.length + 2) :: p).sum < 65536 := by
  have hsum : p.sum ≤ p.length * 255 := by
    have h := List.sum_le_card_nsmul p 255 (fun x hx => Nat.lt_succ_iff.mp (hb x hx))
    simpa [smul_eq_mul] using h
  have hmul : p.length * 255 ≤ 253 * 255 := Nat.mul_le_mul_right _ hlen
  have hcons : (254 :: 254 :: (p.length + 2) :: p).sum = 254 + (254 + ((p.length + 2) + p.sum)) := by
    simp [List.sum_cons]
  omega

/-- Explicit form of `create_packet` on in-range byte payloads. -/
lemma create_packet_eq (p : List Nat) (hlen : p.length ≤ 253) (hb : ∀ b ∈ p, b < 256) :
    create_packet p =
      some ((254 :: 254 :: (p.length + 2) :: p) ++
        [(254 :: 254 :: (p.length + 2) :: p).sum / 256,
         (254 :: 254 :: (p.length + 2) :: p).sum % 256]) := by
  have hs := packet_sum_lt p hlen hb
  unfold create_packet
  rw [if_neg (by omega), if_neg (by omega)]

/-- Claim C6: for every payload of length at most 253, `create_packet` is total
and returns the two magic bytes `0xFE 0xFE`, a length byte equal to
`len(payload) + 2`, the payload, and the arithmetic sum of all preceding bytes
truncated to 16 bits written big-endian as two bytes. -/
theorem create_packet_spec (p : List Nat) (hlen : p.length ≤ 253)
    (hb : ∀ b ∈ p, b < 256) :
    create_packet p =
      some ((254 :: 254 :: (p.length + 2) :: p) ++
        [((254 :: 254 :: (p.length + 2) :: p).sum % 65536) / 256,
         ((254 :: 254 :: (p.length + 2) :: p).sum % 65536) % 256]) := by
  rw [create_packet_eq p hlen hb, Nat.mod_eq_of_lt (packet_sum_lt p hlen hb)]

/-- Witness for C6 at the one-byte Query payload. -/
theorem create_packet_spec_witness :
    create_packet [1] = some [254, 254, 3, 1, 2, 0] := by
  exact (create_packet_spec [1] (by decide) (by decide)).trans (by decide)

/-- Claim C1: frame codec round trip — for every byte payload of length at
most 253, decoding the frame produced by `create_packet` succeeds and returns
exactly the payload. -/
theorem frame_codec_roundtrip (p : List Nat) (hlen : p.length ≤ 253)
    (hb : ∀ b ∈ p, b < 256) :
    ∃ pkt, create_packet p = some pkt ∧ get_packet_data pkt = .ok p := by
  refine ⟨_, create_packet_eq p hlen hb, ?_⟩
  have hs := packet_sum_lt p hlen hb
  set A : List Nat := 254 :: 254 :: (p.length + 2) :: p with hA
  set s : Nat := A.sum with hss
  set pkt : List Nat := A ++ [s / 256, s % 256] with hpkt
  have hAlen : A.length = p.length + 3 := by simp [hA]
  have hlenpkt : pkt.length = p.length + 5 := by simp [hpkt, hAlen]
  have htake2 : pkt.take 2 = [254, 254] := by rw [hpkt, hA]; rfl
  have hget2 : pkt.getD 2 0 = p.length + 2 := by rw [hpkt, hA]; rfl
  have hdrop2 : pkt.drop (pkt.length - 2) = [s / 256, s % 256] := by
    rw [hlenpkt, show p.length + 5 - 2 = A.length from by omega, hpkt]
    exact List.drop_left A _
  have htakeA : pkt.take (pkt.length - 2) = A := by
    rw [hlenpkt, show p.length + 5 - 2 = A.length from by omega, hpkt]
    exact List.take_left A _
  have hcsum : frame_csum pkt = s := by
    unfold frame_csum
    rw [hdrop2]
    have hdm := Nat.div_add_mod s 256
    simp [List.getD]
    omega
  have hsum : frame_sum pkt = s := by
    unfold frame_sum
    rw [htakeA]
  have hdrop3 : pkt.drop 3 = p ++ [s / 256, s % 256] := by rw [hpkt, hA]; rfl
  have hres : (pkt.drop 3).take (pkt.length - 5) = p := by
    rw [hdrop3, hlenpkt, show p.length + 5 - 5 = p.length from by omega]
    exact List.take_left p _
  unfold get_packet_data
  rw [if_neg (by omega), if_neg (by rw [htake2]; simp),
    if_neg (by rw [hget2, hlenpkt]; omega),
    if_pos (Or.inl (hcsum.trans hsum.symm)), hres]

/-- Witness for C1 at the one-byte Query payload. -/
theorem frame_codec_roundtrip_witness :
    ∃ pkt, create_packet [1] = some pkt ∧ get_packet_data pkt = .ok [1] :=
  frame_codec_roundtrip [1] (by decide) (by decide)

/-- Claim C5: complete characterisation of `get_packet_data` — the checks run
in order (too-short, bad header, length mismatch, checksum), the checksum
field is accepted exactly when it equals the byte sum of `raw[:-2]` or twice
that sum, success returns `raw[3:-2]`, and every input yields a typed result
(the function is total). -/
theorem get_packet_data_cases (raw : List Nat) :
    (get_packet_data raw = .error .tooShort ↔ raw.length ≤ 2) ∧
    (get_packet_data raw = .error .badHeader ↔
      2 < raw.length ∧ raw.take 2 ≠ [254, 254]) ∧
    (get_packet_data raw = .error .lengthMismatch ↔
      2 < raw.length ∧ raw.take 2 = [254, 254] ∧ raw.getD 2 0 ≠ raw.length - 3) ∧
    (get_packet_data raw = .error .badChecksum ↔
      2 < raw.length ∧ raw.take 2 = [254, 254] ∧ raw.getD 2 0 = raw.length - 3 ∧
      frame_csum raw ≠ frame_sum raw ∧ frame_csum raw ≠ frame_sum raw * 2) ∧
    (get_packet_data raw = .ok ((raw.drop 3).take (raw.length - 5)) ↔
      2 < raw.length ∧ raw.take 2 = [254, 254] ∧ raw.getD 2 0 = raw.length - 3 ∧
      (frame_csum raw = frame_sum raw ∨ frame_csum raw = frame_sum raw * 2)) := by
  unfold get_packet_data
  split_ifs with h1 h2 h3 h4 <;>
    refine ⟨?_, ?_, ?_, ?_, ?_⟩ <;> simp_all <;> omega

/-! ## Record codec theorems -/

/-- Packing the signed-byte reading of a raw byte recovers the byte. -/
lemma packSignedByte_toSigned (b : Nat) (hb : b < 256) :
    packSignedByte (toSigned b) = some b := by
  unfold packSignedByte toSigned
  split_ifs <;> simp_all <;> omega

/-- Packing an in-range byte with `struct.pack('B', _)` succeeds. -/
lemma packUnsignedByte_eq (b : Nat) (hb : b < 256) :
    packUnsignedByte b = some b := by
  unfold packUnsignedByte
  rw [if_pos (by omega)]

/-- Packing the truthiness of a 0/1 byte recovers the byte. -/
lemma packBool_bne (b : Nat) (hb : b < 2) : packBool (b != 0) = b := by
  interval_cases b <;> rfl

/-- A successfully parsed run mode packs back to the original byte. -/
lemma parseRunMode_toByte (x : Nat) (rm : FridgeRunMode)
    (h : parseRunMode x = .ok rm) : rm.toByte = x := by
  unfold parseRunMode at h
  split_ifs at h with h0 h1
  · injection h with h2; subst h2; simp [FridgeRunMode.toByte, h0]
  · injection h with h2; subst h2; simp [FridgeRunMode.toByte, h1]

/-- A successfully parsed battery-saver level packs back to the original byte. -/
lemma parseBatterySaver_toByte (x : Nat) (bs : FridgeBatterySaver)
    (h : parseBatterySaver x = .ok bs) : bs.toByte = x := by
  unfold parseBatterySaver at h
  split_ifs at h with h0 h1 h2
  · injection h with h3; subst h3; simp [FridgeBatterySaver.toByte, h0]
  · injection h with h3; subst h3; simp [FridgeBatterySaver.toByte, h1]
  · injection h with h3; subst h3; simp [FridgeBatterySaver.toByte, h2]

/-- A successfully parsed temperature unit packs back to the original byte. -/
lemma parseTemperatureUnit_toByte (x : Nat) (tu : FridgeTemperatureUnit)
    (h : parseTemperatureUnit x = .ok tu) : tu.toByte = x := by
  unfold parseTemperatureUnit at h
  split_ifs at h with h0 h1
  · injection h with h2; subst h2; simp [FridgeTemperatureUnit.toByte, h0]
  · injection h with h2; subst h2; simp [FridgeTemperatureUnit.toByte, h1]

/-- Explicit form of `decode_fridge_data` on a record of 18 to 27 bytes
(given as 18 leading bytes plus fewer than 10 trailing bytes) whose enum
bytes parse: every field comes from its table offset, `running_status` and
`unit2` are absent. -/
lemma decode_fridge_data_cons
    (b0 b1 b2 b3 b4 b5 b6 b7 b8 b9 b10 b11 b12 b13 b14 b15 b16 b17 : Nat)
    (rest : List Nat) (hrest : rest.length < 10)
    (rm : FridgeRunMode) (bs : FridgeBatterySaver) (tu : FridgeTemperatureUnit)
    (hrm : parseRunMode b2 = .ok rm) (hbs : parseBatterySaver b3 = .ok bs)
    (htu : parseTemperatureUnit b9 = .ok tu) :
    decode_fridge_data
        (b0 :: b1 :: b2 :: b3 :: b4 :: b5 :: b6 :: b7 :: b8 :: b9 :: b10 :: b11 ::
          b12 :: b13 :: b14 :: b15 :: b16 :: b17 :: rest) =
      .ok
        { controls_locked := b0 != 0
          powered_on := b1 != 0
          run_mode := rm
          battery_saver := bs
          max_selectable_temperature := toSigned b5
          min_selectable_temperature := toSigned b6
          start_delay := b8
          temperature_unit := tu
          battery_charge_percent := b15
          battery_voltage := (b16 : ℚ) + (b17 : ℚ) / 10
          running_status := none
          unit1 :=
            { target_temperature := toSigned b4
              hysteresis := toSigned b7
              temperature_correction_hot := toSigned b10
              temperature_correction_mid := toSigned b11
              temperature_correction_cold := toSigned b12
              temperature_correction_halt := toSigned b13
              current_temperature := toSigned b14 }
          unit2 := none } := by
  set l : List Nat :=
    b0 :: b1 :: b2 :: b3 :: b4 :: b5 :: b6 :: b7 :: b8 :: b9 :: b10 :: b11 ::
      b12 :: b13 :: b14 :: b15 :: b16 :: b17 :: rest with hl
  have hlen : l.length = 18 + rest.length := by simp [hl]; omega
  have h1 : ¬(l.length < 18) := by omega
  have h2 : ¬(28 ≤ l.length ∧ l.length < 29) := by omega
  have h3 : ¬(28 ≤ l.length) := by omega
  have h4 : l.length < 28 := by omega
  have hg2 : l.getD 2 0 = b2 := by rw [hl]; rfl
  have hg3 : l.getD 3 0 = b3 := by rw [hl]; rfl
  have hg9 : l.getD 9 0 = b9 := by rw [hl]; rfl
  unfold decode_fridge_data decode_unit1_data decode_unit2_data
  rw [if_neg h1, if_neg h2, hg2, hg3, hg9, hrm, hbs, htu]
  rw [if_neg h3, if_pos h4]
  rfl

/-- Claim C9: on an 18-byte payload with valid enum bytes, record decode
succeeds with `compartment2 = None` and `running_status = None`, and maps
each field from its table offset: bools at 0-1, enums at 2, 3 and 9, signed
bytes at 4-7 and 10-14, unsigned bytes at 8, 15, 16, 17, with
`battery_voltage = byte16 + byte17 / 10`. -/
theorem decode_minimal_record_fields
    (b0 b1 b2 b3 b4 b5 b6 b7 b8 b9 b10 b11 b12 b13 b14 b15 b16 b17 : Nat)
    (rm : FridgeRunMode) (bs : FridgeBatterySaver) (tu : FridgeTemperatureUnit)
    (hrm : parseRunMode b2 = .ok rm) (hbs : parseBatterySaver b3 = .ok bs)
    (htu : parseTemperatureUnit b9 = .ok tu) :
    decode_fridge_data
        [b0, b1, b2, b3, b4, b5, b6, b7, b8, b9, b10, b11, b12, b13, b14, b15, b16, b17] =
      .ok
        { controls_locked := b0 != 0
          powered_on := b1 != 0
          run_mode := rm
          battery_saver := bs
          max_selectable_temperature := toSigned b5
          min_selectable_temperature := toSigned b6
          start_delay := b8
          temperature_unit := tu
          battery_charge_percent := b15
          battery_voltage := (b16 : ℚ) + (b17 : ℚ) / 10
          running_status := none
          unit1 :=
            { target_temperature := toSigned b4
              hysteresis := toSigned b7
              temperature_correction_hot := toSigned b10
              temperature_correction_mid := toSigned b11
              temperature_correction_cold := toSigned b12
              temperature_correction_halt := toSigned b13
              current_temperature := toSigned b14 }
          unit2 := none } :=
  decode_fridge_data_cons b0 b1 b2 b3 b4 b5 b6 b7 b8 b9 b10 b11 b12 b13 b14 b15
    b16 b17 [] (by decide) rm bs tu hrm hbs htu

/-- Witness for C9: the sample payload with battery voltage bytes 12 and 6
decodes to voltage 12.6, with the other fields at their offsets. -/
theorem decode_minimal_record_fields_witness :
    decode_fridge_data [1, 1, 1, 2, 251, 10, 240, 2, 0, 0, 1, 2, 3, 4, 250, 95, 12, 6] =
      .ok
        { controls_locked := true
          powered_on := true
          run_mode := .Eco
          battery_saver := .High
          max_selectable_temperature := 10
          min_selectable_temperature := -16
          start_delay := 0
          temperature_unit := .Celsius
          battery_charge_percent := 95
          battery_voltage := (126 : ℚ) / 10
          running_status := none
          unit1 :=
            { target_temperature := -5
              hysteresis := 2
              temperature_correction_hot := 1
              temperature_correction_mid := 2
              temperature_correction_cold := 3
              temperature_correction_halt := 4
              current_temperature := -6 }
          unit2 := none } := by
  have h := decode_minimal_record_fields 1 1 1 2 251 10 240 2 0 0 1 2 3 4 250 95 12 6
    .Eco .High .Celsius rfl rfl rfl
  rw [h]
  norm_num [toSigned]

/-- Claim C2, evaluated at the failing boundary: a 28-byte payload makes
`decode_fridge_data` raise `struct.error` (its guard checks `len >= 28` but
the `running_status` read at offset 28 needs `len >= 29`), so decode does
not succeed there; and on a 29-byte payload the stored `running_status` is
the unindexed 1-tuple returned by `struct.unpack_from`, not the raw byte. -/
theorem decode_len28_structError :
    decode_fridge_data (List.replicate 28 0) = .error .structError ∧
    (decode_fridge_data (List.replicate 29 0)).toOption.map
        (fun d => d.running_status) = some (some [0]) :=
  ⟨rfl, rfl⟩

/-- Claim C3 counterexample: the 26-byte payload `encode_set_command` builds
for a two-zone snapshot is a self-consistent Set layout; its record part
decodes successfully, but re-encoding the decoded snapshot yields the
15-byte single-zone payload (the decoder populates compartment2 only for
records of 28 bytes or more, at different offsets), not the original
payload bytes. -/
theorem set_roundtrip_cex :
    encode_set_payload fridgeDataTwoZone = some (2 :: List.replicate 25 0) ∧
    (Except.toOption (decode_fridge_data ((2 :: List.replicate 25 0).drop 1))).bind
        encode_set_payload = some (2 :: List.replicate 14 0) ∧
    some (2 :: List.replicate 14 0) ≠ some (2 :: List.replicate 25 0) :=
  ⟨by decide, by decide, by decide⟩

/-- Claim C3 as amended: for every decodable record with compartment2 absent
(18 to 27 bytes, 0/1 boolean bytes, valid enum bytes, in-range field bytes),
re-encoding the decoded snapshot as a Set command reproduces exactly the Set
command code followed by the record's first 14 bytes.  The identity on the
full payload claimed originally fails: a decodable record needs at least 18
bytes while the single-zone Set payload carries 14 record bytes, and the
two-zone Set layout (compartment2 at offsets 14-21 of the record) differs
from the decoder's compartment2 layout (offsets 18-26, requiring length at
least 28). -/
theorem set_roundtrip_first14
    (b0 b1 b2 b3 b4 b5 b6 b7 b8 b9 b10 b11 b12 b13 b14 b15 b16 b17 : Nat)
    (rest : List Nat) (hrest : rest.length < 10)
    (rm : FridgeRunMode) (bs : FridgeBatterySaver) (tu : FridgeTemperatureUnit)
    (hrm : parseRunMode b2 = .ok rm) (hbs : parseBatterySaver b3 = .ok bs)
    (htu : parseTemperatureUnit b9 = .ok tu)
    (hb0 : b0 < 2) (hb1 : b1 < 2)
    (hb4 : b4 < 256) (hb5 : b5 < 256) (hb6 : b6 < 256) (hb7 : b7 < 256)
    (hb8 : b8 < 256) (hb10 : b10 < 256) (hb11 : b11 < 256) (hb12 : b12 < 256)
    (hb13 : b13 < 256) :
    ∃ d,
      decode_fridge_data
          (b0 :: b1 :: b2 :: b3 :: b4 :: b5 :: b6 :: b7 :: b8 :: b9 :: b10 :: b11 ::
            b12 :: b13 :: b14 :: b15 :: b16 :: b17 :: rest) = .ok d ∧
      encode_set_payload d =
        some [2, b0, b1, b2, b3, b4, b5, b6, b7, b8, b9, b10, b11, b12, b13] := by
  refine ⟨_, decode_fridge_data_cons b0 b1 b2 b3 b4 b5 b6 b7 b8 b9 b10 b11 b12 b13
    b14 b15 b16 b17 rest hrest rm bs tu hrm hbs htu, ?_⟩
  simp only [encode_set_payload, encode_set_payload_no_unit2,
    packSignedByte_toSigned b4 hb4, packSignedByte_toSigned b5 hb5,
    packSignedByte_toSigned b6 hb6, packSignedByte_toSigned b7 hb7,
    packUnsignedByte_eq b8 hb8, packSignedByte_toSigned b10 hb10,
    packSignedByte_toSigned b11 hb11, packSignedByte_toSigned b12 hb12,
    packSignedByte_toSigned b13 hb13, packBool_bne b0 hb0, packBool_bne b1 hb1,
    parseRunMode_toByte b2 rm hrm, parseBatterySaver_toByte b3 bs hbs,
    parseTemperatureUnit_toByte b9 tu htu]

/-- Witness for the amended C3 at the all-zero 18-byte record. -/
theorem set_roundtrip_first14_witness :
    ∃ d, decode_fridge_data (List.replicate 18 0) = .ok d ∧
      encode_set_payload d = some [2, 0, 0, 0, 0, 0, 0, 0, 0, 0, 0, 0, 0, 0, 0] :=
  set_roundtrip_first14 0 0 0 0 0 0 0 0 0 0 0 0 0 0 0 0 0 0 [] (by decide)
    .Max .Low .Celsius rfl rfl rfl (by decide) (by decide) (by decide) (by decide)
    (by decide) (by decide) (by decide) (by decide) (by decide) (by decide)
    (by decide)

/-! ## Monitor state machine theorems -/

/-- Claim C7: the poll-outcome sequence `[A, A, Timeout, Timeout, A]`
(initial query then four polls) publishes exactly
`[online, state A, offline, online, state A]`: no publication for the
unchanged second reading, a single offline for the two consecutive
timeouts, and a fresh online-plus-state transition afterwards. -/
theorem monitor_scenario_events (A : FridgeData) :
    runMonitor (some A) [some A, none, none, some A] =
      .ok [.online true, .state A.to_dict, .online false,
        .online true, .state A.to_dict] := by
  simp [runMonitor, initMonitor, pollLoop, pollStep, publish_status, publish_offline]

/-- Claim C4, evaluated at a failing scenario: the initial query returns the
all-zero snapshot and the next poll's response decodes to a different
snapshot, yet no state-changed event is published and the last-known state
stays at the initial snapshot — the poll result is discarded
(`await asyncio.wait_for(fridge.query(), 5)` without assignment) and the
stale initial `query_response` is compared and stored instead. -/
theorem poll_discards_decoded_snapshot :
    fridgeDataZero ≠ fridgeDataCharged ∧
    runMonitor (some fridgeDataZero) [some fridgeDataCharged] =
      .ok [.online true, .state fridgeDataZero.to_dict] :=
  ⟨by decide, by decide⟩

/-- Claim C8, evaluated on the code: when the initial query times out, the
locals `last_status` and `query_response` are never assigned, so the first
poll iteration raises `UnboundLocalError` (on both the timeout and the
success paths) instead of proceeding with no known last state. -/
theorem initial_timeout_unbound_local :
    runMonitor none [none] = .error .unboundLocal ∧
    runMonitor none [some fridgeDataZero] = .error .unboundLocal :=
  ⟨rfl, rfl⟩

/-! ## Notification callback theorems -/

/-- Claim C10: any frame whose payload is at least 2 bytes, has leading
command byte `Query` and record-decodes to a snapshot makes the callback
invoke the `on_query_response` observer (when set) with that snapshot, and
this happens before the pending query waiter (when present) is resolved —
solicited and unsolicited query responses alike; payloads shorter than
2 bytes are dropped without resolving any waiter. -/
theorem notify_callback_query_observer (pkt : List Nat) (observerSet : Bool)
    (w : FridgeWaiters) (d : List Nat) (hd : get_packet_data pkt = .ok d) :
    (d.length < 2 → notify_callback observerSet w pkt = .ok []) ∧
    (∀ snap, 2 ≤ d.length → d.getD 0 0 = 1 →
      decode_fridge_data (d.drop 1) = .ok snap →
      notify_callback observerSet w pkt =
        .ok ((if observerSet then [.onQueryResponse snap] else []) ++
          (if w.query then [.resolveQuery snap] else []))) := by
  constructor
  · intro hlen
    simp only [notify_callback, hd, if_pos hlen]
  · intro snap hlen h0 hdec
    simp only [notify_callback, hd, h0]
    rw [if_neg (show ¬(d.length < 2) by omega), if_pos trivial, hdec]
    rfl

/-- Witness for C10: on a concrete all-zero query-response frame, with the
observer set and a query waiter pending, the callback emits the observer
call first and then resolves the waiter. -/
theorem notify_callback_query_observer_witness :
    notify_callback true ⟨true, true, true, true, true, true⟩ pktQueryZero =
      .ok [.onQueryResponse snapZero, .resolveQuery snapZero] :=
  (notify_callback_query_observer pktQueryZero true ⟨true, true, true, true, true, true⟩
    (1 :: List.replicate 18 0) rfl).2 snapZero (by decide) rfl rfl

end FridgeMonitor
